import Mathlib

/-!
Verification of the Instagram event-extraction pipeline
(`src/instagram/extraction/ai.py`): a shallow embedding of the
`GroqRateLimiter`, the `EventExtractor` validation / normalization
helpers, the repository insert logic and the per-post orchestration,
together with theorems settling the specified properties.

Modelling conventions:
* datetime instants are integers (seconds since the Unix epoch, UTC);
  `dateutil` parsing is abstracted by an inductive describing the parse
  outcome of the raw string (empty / unparseable / parsed instant);
* database and network effects are abstracted by explicit oracles that
  supply the outcome of each call, while the rows the code sends are
  recorded in an explicit write trace;
* Python strings are modelled over their character lists (ASCII-faithful
  for the operations used: `strip`, `lstrip`, `str.translate` with
  `string.punctuation`, `str.title`, `str.lower`, substring tests).
-/

/-- The characters of Python's `string.punctuation` (32 ASCII characters),
used by `_normalize_tag` via `str.translate` to delete punctuation. -/
def pythonPunctuation : List Char :=
  ['!', '"', '#', '$', '%', '&', Char.ofNat 39, '(', ')', '*', '+', ',', '-', '.', '/',
   ':', ';', '<', '=', '>', '?', '@', '[', '\\', ']', Char.ofNat 94, '_', Char.ofNat 96,
   Char.ofNat 123, '|', Char.ofNat 125, Char.ofNat 126]

/-- Python `str.strip()` whitespace characters (ASCII). -/
def isPySpace (c : Char) : Bool :=
  c = ' ' || c = '\t' || c = '\n' || c = '\r' || c = Char.ofNat 11 || c = Char.ofNat 12

/-- Python `str.strip()` on a character list: drop whitespace from both ends. -/
def pyStripChars (l : List Char) : List Char :=
  ((l.dropWhile isPySpace).reverse.dropWhile isPySpace).reverse

/-- Python `str.strip()`. -/
def pyStrip (s : String) : String := ⟨pyStripChars s.data⟩

/-- Python `str.title()` over ASCII: a character is uppercased when the
previous character is not a letter, lowercased otherwise. -/
def pyTitleChars : Bool → List Char → List Char
  | _, [] => []
  | prevAlpha, c :: cs =>
    if c.isAlpha then
      (if prevAlpha then c.toLower else c.toUpper) :: pyTitleChars true cs
    else
      c :: pyTitleChars false cs

/-- `tag.translate(str.maketrans('', '', string.punctuation))`: remove
punctuation characters, keeping everything else (spaces preserved). -/
def stripPunctChars (l : List Char) : List Char :=
  l.filter (fun c => !(pythonPunctuation.contains c))

/-- The singularization step of `_normalize_tag`: drop one trailing `'s'`
when the string ends in `'s'` but not `'ss'` and is longer than 3
characters. -/
def dropTrailingPluralS (l : List Char) : List Char :=
  match l.getLast? with
  | some 's' =>
    match l.dropLast.getLast? with
    | some 's' => l
    | _ => if l.length > 3 then l.dropLast else l
  | _ => l

/-- `EventExtractor._normalize_tag`: strip surrounding whitespace, strip
leading `'#'` characters, delete punctuation, drop a simple trailing
plural `'s'`, then title-case. -/
def _normalize_tag (tag : String) : String :=
  ⟨pyTitleChars false
    (dropTrailingPluralS
      (stripPunctChars
        ((pyStripChars tag.data).dropWhile (fun c => c = '#'))))⟩

/-- Python `str.lower()` (ASCII model). -/
def pyLower (s : String) : String := ⟨s.data.map Char.toLower⟩

/-- Whether the first character list is a prefix of the second. -/
def isPrefixChars : List Char → List Char → Bool
  | [], _ => true
  | _ :: _, [] => false
  | a :: as, b :: bs => a = b && isPrefixChars as bs

/-- Whether the first character list occurs contiguously in the second. -/
def isInfixChars (needle hay : List Char) : Bool :=
  match hay with
  | [] => needle.isEmpty
  | _ :: rest => isPrefixChars needle hay || isInfixChars needle rest

/-- Python substring test `needle in hay`. -/
def containsSub (hay needle : String) : Bool :=
  isInfixChars needle.data hay.data

/-- Outcome of `dateutil.parser.parse` on a raw datetime string, as seen by
`EventExtractor._to_utc`: the string is empty (falsy), unparseable (the
parser raises), or denotes an instant, given here directly as UTC epoch
seconds (naive datetimes are assumed UTC by `_to_utc`, so every parsed
string determines one instant). -/
inductive DtStr where
  | empty : DtStr
  | unparseable (s : String) : DtStr
  | parsed (t : Int) : DtStr
deriving DecidableEq

/-- `EventExtractor._to_utc`: `None` for an empty input, `None` when the
lenient parse raises, otherwise the instant converted to UTC. -/
def _to_utc : DtStr → Option Int
  | .empty => none
  | .unparseable _ => none
  | .parsed t => some t

/-- A raw event dict from the model's JSON output (absent / `None` string
fields are modelled as `""`, which is what the code's `.get(..., '')`
accesses and truthiness tests treat identically). -/
structure RawEvent where
  name : String
  description : String
  start_datetime : DtStr
  end_datetime : DtStr
  is_all_day : Bool
  type : String
  address : String
  location_name : String
  url : String
  categories : List String
  event_tags : List String
deriving DecidableEq

/-- An entry of a top-level `categories` list: a dict `{'name': ...}` or a
bare string. -/
inductive CatEntry where
  | byName (name : String)
  | byStr (s : String)
deriving DecidableEq

/-- An entry of a top-level `event_tags` list: a dict `{'tag': ...}` or a
bare string. -/
inductive TagEntry where
  | byTag (tag : String)
  | byStr (s : String)
deriving DecidableEq

/-- The cleaned event dict produced by `_validate_event`. -/
structure CleanedEvent where
  name : String
  start_datetime : Option Int
  end_datetime : Option Int
  address : Option String
  location_name : Option String
  description : Option String
  is_all_day : Bool
  type : String
  url : Option String
  categories : List String
  tags : List String
deriving DecidableEq

/-- Failure reasons returned by `_validate_event`. -/
inductive Reason where
  | past
  | validation_failed
deriving DecidableEq

/-- `EventExtractor.CATEGORY_ENUM`. -/
def CATEGORY_ENUM : List String := ["event", "club", "sport", "deadline", "meeting"]

/-- `EventExtractor.TYPE_ENUM`. -/
def TYPE_ENUM : List String := ["in-person", "virtual", "hybrid"]

/-- The helper `empty_to_none` inside `_validate_event`: `None` for a blank
string, the stripped string otherwise. -/
def empty_to_none (s : String) : Option String :=
  if pyStrip s = "" then none else some (pyStrip s)

/-- `datetime.date()` of a UTC instant: the day number (floor division of
epoch seconds by 86400, as Python's floor semantics). -/
def dateOf (t : Int) : Int := Int.fdiv t 86400

/-- `(start_dt - current_time).days` of `_validate_event`'s future-horizon
check: Python's `timedelta.days` floors towards minus infinity. -/
def daysInFuture (t now : Int) : Int := Int.fdiv (t - now) 86400

/-- The past-event rejection of `_validate_event`: all-day events are
compared by date, timed events by instant (`start_dt < current_time`). -/
def rejectPast (raw : RawEvent) (start : Option Int) (now : Int) : Bool :=
  match start with
  | none => false
  | some t =>
    if raw.is_all_day then decide (dateOf t < dateOf now)
    else decide (t < now)

/-- `str(year) in event_text` for `year in range(2024, 2030)` over
`f"{name} {description}"`. -/
def hasExplicitYear (raw : RawEvent) : Bool :=
  (List.range' 2024 6).any
    (fun year => containsSub (raw.name ++ " " ++ raw.description) (toString year))

/-- The future-horizon rejection of `_validate_event`: more than 120 whole
days in the future and no explicit four-digit year literal in the event
text. -/
def rejectHorizon (raw : RawEvent) (start : Option Int) (now : Int) : Bool :=
  match start with
  | none => false
  | some t => decide (daysInFuture t now > 120) && !(hasExplicitYear raw)

/-- The category strings collected from a top-level `categories` list:
dict entries contribute their truthy `name` lowercased, string entries
their stripped lowercased text. -/
def catsFromEntries (es : List CatEntry) : List String :=
  es.filterMap (fun c =>
    match c with
    | .byName n => if n ≠ "" then some (pyLower n) else none
    | .byStr s => if pyStrip s ≠ "" then some (pyLower (pyStrip s)) else none)

/-- The enum coercion `[c if c in CATEGORY_ENUM else 'event' for c in cats]`. -/
def coerceCats (cs : List String) : List String :=
  cs.map (fun c => if CATEGORY_ENUM.contains c then c else "event")

/-- The normalized tags collected from a top-level `event_tags` list. -/
def tagsFromEntries (es : List TagEntry) : List String :=
  es.filterMap (fun t =>
    match t with
    | .byTag s => if s ≠ "" then some (_normalize_tag s) else none
    | .byStr s => if pyStrip s ≠ "" then some (_normalize_tag (pyStrip s)) else none)

/-- `list(dict.fromkeys(xs))`: deduplicate keeping the first occurrence. -/
def dedupFirstAux (seen : List String) : List String → List String
  | [] => []
  | x :: xs =>
    if seen.contains x then dedupFirstAux seen xs
    else x :: dedupFirstAux (x :: seen) xs

/-- `list(dict.fromkeys(xs))`. -/
def dedupFirst (xs : List String) : List String := dedupFirstAux [] xs

/-- The category list computed by `_validate_event`: top-level entries when
any survive, otherwise the per-event fallback (`raw_event['categories']`,
whose entries are bare strings in this model), each pass coerced into the
enum. -/
def validatedCategories (raw : RawEvent) (topCats : List CatEntry) : List String :=
  let cats := if topCats ≠ [] then coerceCats (catsFromEntries topCats) else []
  let cats :=
    if cats = [] then
      coerceCats (catsFromEntries (raw.categories.map CatEntry.byStr))
    else cats
  dedupFirst cats

/-- The tag list computed by `_validate_event`: top-level entries when any
survive, otherwise the per-event fallback (`raw_event['event_tags']`). -/
def validatedTags (raw : RawEvent) (topTags : List TagEntry) : List String :=
  let tags := if topTags ≠ [] then tagsFromEntries topTags else []
  let tags :=
    if tags = [] then tagsFromEntries (raw.event_tags.map TagEntry.byStr)
    else tags
  dedupFirst tags

/-- The `type` normalization: `(raw_event.get('type') or 'in-person').lower()`,
coerced into `TYPE_ENUM` with default `'in-person'`. -/
def validatedType (raw : RawEvent) : String :=
  let et := pyLower (if raw.type = "" then "in-person" else raw.type)
  if TYPE_ENUM.contains et then et else "in-person"

/-- `EventExtractor._validate_event`: returns `(cleaned, reason)` where the
reason is `past`, `validation_failed`, or `none` on success. `now` is the
wall clock (`datetime.now(timezone.utc)`). The unused `posted_at`
parameter of the Python signature is omitted. -/
def _validate_event (raw : RawEvent) (topCats : List CatEntry) (topTags : List TagEntry)
    (now : Int) : Option CleanedEvent × Option Reason :=
  let start := _to_utc raw.start_datetime
  let endOpt := _to_utc raw.end_datetime
  let endOpt :=
    match start, endOpt with
    | some s, some e => some (if e < s then s else e)
    | _, _ => endOpt
  if rejectPast raw start now then (none, some .past)
  else if rejectHorizon raw start now then (none, some .validation_failed)
  else
    let nameOpt := empty_to_none raw.name
    let descOpt := empty_to_none raw.description
    if nameOpt = none ∧ descOpt = none then (none, some .validation_failed)
    else
      (some
        { name := nameOpt.getD "Untitled Event"
          start_datetime := start
          end_datetime := endOpt
          address := empty_to_none raw.address
          location_name := empty_to_none raw.location_name
          description := descOpt
          is_all_day := raw.is_all_day
          type := validatedType raw
          url := empty_to_none raw.url
          categories := validatedCategories raw topCats
          tags := validatedTags raw topTags }, none)

/-- A value sent in a row of a Supabase REST insert. -/
inductive DbVal where
  | vnull
  | vbool (b : Bool)
  | vnat (n : Nat)
  | vdt (t : Int)
  | vstr (s : String)
deriving DecidableEq

/-- A row the code sends to a table (field order as the Python dict literal). -/
structure Write where
  table : String
  row : List (String × DbVal)
deriving DecidableEq

/-- Outcome of one `event_categories` / `event_tags` link insert, as decided
by the database: success, an error whose message contains
`"duplicate key"`, or any other error. -/
inductive LinkResult where
  | ok
  | dupKeyError
  | otherError
deriving DecidableEq

/-- Outcome of the `events` row insert: data with an id, an empty data
payload, or a raised error. -/
inductive EventInsertOutcome where
  | ok (id : Nat)
  | noData
  | errored
deriving DecidableEq

/-- `DbVal` of an optional string field. -/
def optStr : Option String → DbVal
  | none => .vnull
  | some s => .vstr s

/-- `DbVal` of an optional datetime field. -/
def optDt : Option Int → DbVal
  | none => .vnull
  | some t => .vdt t

/-- `DbVal` of an optional id field. -/
def optNat : Option Nat → DbVal
  | none => .vnull
  | some n => .vnat n

/-- The `event_data` dict built by `_insert_transaction` (field order as in
the source). -/
def eventRowFields (event : CleanedEvent) (profile_id school_id post_id caption_id : Option Nat) :
    List (String × DbVal) :=
  [("url", optStr event.url),
   ("name", .vstr event.name),
   ("start_datetime", optDt event.start_datetime),
   ("end_datetime", optDt event.end_datetime),
   ("school_id", optNat school_id),
   ("address", optStr event.address),
   ("location_name", optStr event.location_name),
   ("description", optStr event.description),
   ("is_all_day", .vbool event.is_all_day),
   ("type", .vstr event.type),
   ("status", .vstr "active"),
   ("profile_id", optNat profile_id),
   ("post_id", optNat post_id),
   ("caption_id", optNat caption_id)]

/-- The link-insert loops of `_insert_transaction`: each element's insert is
attempted in order; a `duplicate key` error is swallowed and the loop
continues; any other error re-raises, aborting the remaining elements.
Returns whether the loop completed without re-raising, and the rows sent. -/
def runLinks {α : Type} (tbl : String) (mkRow : α → List (String × DbVal))
    (res : Nat → LinkResult) : Nat → List α → Bool × List Write
  | _, [] => (true, [])
  | i, a :: rest =>
    let w : Write := ⟨tbl, mkRow a⟩
    match res i with
    | .otherError => (false, [w])
    | _ =>
      let r := runLinks tbl mkRow res (i + 1) rest
      (r.1, w :: r.2)

/-- Per-name outcome of `_get_or_create_category_ids`: the `i`-th category
name resolves to an id (the `select` found a row, or the `insert`
returned data), is skipped (the `insert` returned no data — logged and
omitted), or one of its `select` / `insert` calls raises. -/
inductive CatResolveOutcome where
  | ok (id : Nat)
  | skipped
  | raises
deriving DecidableEq

/-- `EventExtractor._get_or_create_category_ids` over the per-name outcome
oracle `res`: collects the resolved ids in order, omits skipped names,
and propagates a raised exception (`.error`) past the remaining names. -/
def _get_or_create_category_ids (res : Nat → CatResolveOutcome) :
    Nat → List String → Except Unit (List Nat)
  | _, [] => .ok []
  | i, _ :: rest =>
    match res i with
    | .raises => .error ()
    | .skipped => _get_or_create_category_ids res (i + 1) rest
    | .ok cid =>
      match _get_or_create_category_ids res (i + 1) rest with
      | .error u => .error u
      | .ok ids => .ok (cid :: ids)

/-- `EventExtractor._insert_transaction`. Outcomes of the database calls are
supplied by the oracles `evIns` (the `events` row insert), `catResolve`
(the per-name outcome of `_get_or_create_category_ids`, whose
lookup-or-create calls run inside this function's `try` and may raise)
and `catRes` / `tagRes` (the i-th category / tag link insert of this
call). Returns the Python return value and the trace of rows sent. A
raised category-resolution error, like a re-raised link error, is caught
by the function's outer `except`, which returns `False`; nothing is ever
deleted, so the `events` row stays sent. -/
def insertTransaction (evIns : EventInsertOutcome) (catResolve : Nat → CatResolveOutcome)
    (catRes tagRes : Nat → LinkResult) (event : CleanedEvent)
    (profile_id school_id post_id caption_id : Option Nat) : Bool × List Write :=
  let eventWrite : Write := ⟨"events", eventRowFields event profile_id school_id post_id caption_id⟩
  match evIns with
  | .errored => (false, [eventWrite])
  | .noData => (false, [eventWrite])
  | .ok eid =>
    match _get_or_create_category_ids catResolve 0 event.categories with
    | .error _ => (false, [eventWrite])
    | .ok cat_ids =>
      let catRun := runLinks "event_categories"
        (fun cid => [("event_id", .vnat eid), ("category_id", .vnat cid)]) catRes 0 cat_ids
      if catRun.1 then
        let tagRun := runLinks "event_tags"
          (fun tag => [("event-id", .vnat eid), ("tag", .vstr tag)]) tagRes 0 event.tags
        (tagRun.1, eventWrite :: (catRun.2 ++ tagRun.2))
      else (false, eventWrite :: catRun.2)

/-- Outcome of the `schools` single-row lookup used by `validate_and_insert`
for address enrichment: a row with name and address, or a raised error
(PostgREST `.single()` raises when no row matches). -/
inductive SchoolLookup where
  | found (name addr : String)
  | errors
deriving DecidableEq

/-- The database / network behaviour visible to one `validate_and_insert`
call: for the `k`-th insert attempt of the call, the outcome of its
`events` insert, of its `i`-th category-name resolution and of its
`i`-th category / tag link insert, plus the school lookup. -/
structure DBBehavior where
  eventInsert : Nat → EventInsertOutcome
  catResolve : Nat → Nat → CatResolveOutcome
  catLink : Nat → Nat → LinkResult
  tagLink : Nat → Nat → LinkResult
  school : SchoolLookup

/-- The fields of the `post_data` record used by the pipeline. -/
structure PostData where
  post_id : Nat
  profile_id : Option Nat
  school_id : Option Nat
  caption_id : Option Nat
deriving DecidableEq

/-- The model's parsed JSON output: the events array plus the top-level
`categories` and `event_tags` collections. -/
structure Extracted where
  events : List RawEvent
  categories : List CatEntry
  event_tags : List TagEntry
deriving DecidableEq

/-- The address enrichment step of `validate_and_insert`: when the cleaned
event has a `location_name` and the post has a `school_id`, the school row
is fetched (`.single()`, which raises when absent — modelled as
`Except.error`); on a case-insensitive name match the school's address
replaces the event's. -/
def enrichAddress (db : DBBehavior) (pd : PostData) (cleaned : CleanedEvent) :
    Except Unit CleanedEvent :=
  match cleaned.location_name, pd.school_id with
  | some loc, some _ =>
    match db.school with
    | .errors => .error ()
    | .found nm addr =>
      if pyLower loc = pyLower nm then .ok { cleaned with address := some addr }
      else .ok cleaned
  | _, _ => .ok cleaned

/-- The per-event loop of `validate_and_insert`: validate each raw event,
skip it on failure, otherwise enrich the address and run
`_insert_transaction` (the `k`-th insert attempt uses the `k`-th slice of
the oracle). Returns the accumulated `success_any` flag together with the
list of per-attempt insert results (recorded for specification). -/
def validateAndInsertLoop (db : DBBehavior) (pd : PostData)
    (topCats : List CatEntry) (topTags : List TagEntry) (now : Int) :
    List RawEvent → Nat → Except Unit (Bool × List Bool)
  | [], _ => .ok (false, [])
  | raw :: rest, k =>
    match _validate_event raw topCats topTags now with
    | (none, _) => validateAndInsertLoop db pd topCats topTags now rest k
    | (some cleaned, _) =>
      match enrichAddress db pd cleaned with
      | .error u => .error u
      | .ok cleaned =>
        let ins := (insertTransaction (db.eventInsert k) (db.catResolve k) (db.catLink k)
          (db.tagLink k) cleaned pd.profile_id pd.school_id (some pd.post_id)
          pd.caption_id).1
        match validateAndInsertLoop db pd topCats topTags now rest (k + 1) with
        | .error u => .error u
        | .ok (b, flags) => .ok (ins || b, ins :: flags)

/-- `EventExtractor.validate_and_insert`: validates every event of the
extraction and inserts the surviving ones, returning `success_any` — true
iff at least one `_insert_transaction` call returned `True`. The
school-lookup error propagates uncaught, as in the source. -/
def validate_and_insert (db : DBBehavior) (extracted : Extracted) (pd : PostData)
    (now : Int) : Except Unit (Bool × List Bool) :=
  validateAndInsertLoop db pd extracted.categories extracted.event_tags now
    extracted.events 0

/-- What `process_post` did: its `extraction_success` flag, whether it
called `mark_post_processed`, and the per-attempt insert results. -/
structure PostOutcome where
  success : Bool
  marked : Bool
  inserted : List Bool
deriving DecidableEq

/-- `EventExtractor.process_post`: when the gateway returned data, run
`validate_and_insert` and mark the post processed exactly when it
returned `True`; when the gateway returned `None`, report failure without
marking. -/
def process_post (db : DBBehavior) (extracted : Option Extracted) (pd : PostData)
    (now : Int) : Except Unit PostOutcome :=
  match extracted with
  | none => .ok ⟨false, false, []⟩
  | some d =>
    match validate_and_insert db d pd now with
    | .error u => .error u
    | .ok (b, flags) => .ok ⟨b, b, flags⟩

/-- The mutable state of a `GroqRateLimiter`: the three rolling-window
queues of `(timestamp, tokens)` entries and the (runtime-adjustable)
thresholds. Timestamps are integer seconds. -/
structure RLState where
  requests_per_minute : List (Int × Nat)
  requests_per_day : List (Int × Nat)
  tokens_per_minute : List (Int × Nat)
  RPM_THRESHOLD : Nat
  RPD_THRESHOLD : Nat
  TPM_THRESHOLD : Nat
deriving DecidableEq

/-- The queues of a freshly constructed `GroqRateLimiter`: empty, with the
90% thresholds of the official limits (`int(1000*0.9)`, `int(500000*0.9)`,
`int(300000*0.9)`). -/
def initRateLimiter : RLState :=
  { requests_per_minute := []
    requests_per_day := []
    tokens_per_minute := []
    RPM_THRESHOLD := 900
    RPD_THRESHOLD := 450000
    TPM_THRESHOLD := 270000 }

/-- One `popleft`-while pass of `_cleanup_old_entries`: entries are removed
from the front while strictly older than the cutoff. -/
def purgeOld (cutoff : Int) : List (Int × Nat) → List (Int × Nat)
  | [] => []
  | e :: rest => if e.1 < cutoff then purgeOld cutoff rest else e :: rest

/-- `GroqRateLimiter._cleanup_old_entries`: purge entries older than 60
seconds from the per-minute queues and older than 24 hours from the
per-day queue. -/
def cleanupOldEntries (st : RLState) (now : Int) : RLState :=
  { st with
    requests_per_minute := purgeOld (now - 60) st.requests_per_minute
    requests_per_day := purgeOld (now - 24 * 60 * 60) st.requests_per_day
    tokens_per_minute := purgeOld (now - 60) st.tokens_per_minute }

/-- Sum of the token field over a queue. -/
def tokenSum (l : List (Int × Nat)) : Nat := (l.map Prod.snd).sum

/-- `GroqRateLimiter._get_current_usage`: cleanup, then report the purged
state together with `(rpm, rpd, tpm)` — queue lengths for requests and
the token sum for tokens. -/
def getCurrentUsage (st : RLState) (now : Int) : RLState × Nat × Nat × Nat :=
  let st := cleanupOldEntries st now
  (st, st.requests_per_minute.length, st.requests_per_day.length,
    tokenSum st.tokens_per_minute)

/-- The walk of `check_and_wait_if_needed` over `tokens_per_minute` that
finds when enough tokens expire: accumulate token counts in insertion
order until `tokens_to_free` is reached, yielding that entry's expiry
wait. -/
def tpmWaitWalk (now : Int) (tokensToFree : Int) (running : Nat) :
    List (Int × Nat) → List Int
  | [] => []
  | (ts, tok) :: rest =>
    if (running + tok : Int) ≥ tokensToFree then [ts + 60 - now]
    else tpmWaitWalk now tokensToFree (running + tok) rest

/-- Result of one admission check of `check_and_wait_if_needed`: proceed
(the request was recorded in all three queues), refuse (daily threshold —
return `False` with no sleep and nothing recorded), or sleep and re-check
(the code sleeps `maxWait + 1`). -/
inductive AdmitOutcome where
  | proceed (st : RLState)
  | refuse (st : RLState)
  | wait (maxWait : Int) (st : RLState)
deriving DecidableEq

/-- One pass of `GroqRateLimiter.check_and_wait_if_needed` (the recursive
re-check after sleeping corresponds to running `checkAndWaitStep` again at
the later time). Mirrors the source order: compute usage, test the three
thresholds, build the candidate wait times (RPM first, then the TPM
walk), refuse outright on the daily threshold, otherwise sleep the
maximal positive wait, and in every remaining case record the estimated
entry in all three queues and proceed. -/
def checkAndWaitStep (st : RLState) (now : Int) (estTokens : Nat) : AdmitOutcome :=
  let u := getCurrentUsage st now
  let st := u.1
  let rpm := u.2.1
  let rpd := u.2.2.1
  let tpm := u.2.2.2
  let wouldExceedRpm := rpm ≥ st.RPM_THRESHOLD
  let wouldExceedRpd := rpd ≥ st.RPD_THRESHOLD
  let wouldExceedTpm := tpm + estTokens ≥ st.TPM_THRESHOLD
  let recorded : RLState :=
    { st with
      requests_per_minute := st.requests_per_minute ++ [(now, estTokens)]
      requests_per_day := st.requests_per_day ++ [(now, estTokens)]
      tokens_per_minute := st.tokens_per_minute ++ [(now, estTokens)] }
  if wouldExceedRpm || wouldExceedRpd || wouldExceedTpm then
    let rpmWaits : List Int :=
      if wouldExceedRpm then
        match st.requests_per_minute with
        | [] => []
        | (ts, _) :: _ => [ts + 60 - now]
      else []
    let tpmWaits : List Int :=
      if wouldExceedTpm then
        tpmWaitWalk now ((tpm : Int) + estTokens - st.TPM_THRESHOLD + 1) 0
          st.tokens_per_minute
      else []
    let waitTimes := rpmWaits ++ tpmWaits
    if wouldExceedRpd then .refuse st
    else
      match waitTimes.max? with
      | some m => if m > 0 then .wait m st else .proceed recorded
      | none => .proceed recorded
  else .proceed recorded

/-- Result of one attempt of the Groq call inside
`extract_events_with_groq`: a parsed structured response, or a raised
exception carrying its message text and any response headers. -/
inductive AttemptResult where
  | success (data : Extracted)
  | failure (msg : String) (headers : List (String × String))

/-- The rate-limit classification of `extract_events_with_groq`:
`"429" in str(e) or "rate limit" in str(e).lower()`. -/
def isRateLimitError (msg : String) : Bool :=
  containsSub msg "429" || containsSub (pyLower msg) "rate limit"

/-- Python `int(s)` on an ASCII integer literal: optional surrounding
whitespace, optional sign, at least one digit; anything else raises
`ValueError` (`none`). -/
def pyInt? (s : String) : Option Int :=
  match pyStripChars s.data with
  | [] => none
  | '-' :: ds =>
    if ds ≠ [] ∧ ds.all Char.isDigit then
      some (-(Int.ofNat (ds.foldl (fun n c => n * 10 + (c.toNat - 48)) 0)))
    else none
  | '+' :: ds =>
    if ds ≠ [] ∧ ds.all Char.isDigit then
      some (Int.ofNat (ds.foldl (fun n c => n * 10 + (c.toNat - 48)) 0))
    else none
  | ds =>
    if ds.all Char.isDigit then
      some (Int.ofNat (ds.foldl (fun n c => n * 10 + (c.toNat - 48)) 0))
    else none

/-- `headers.get('retry-after') or headers.get('Retry-After')`, with
Python's falsy treatment of an empty string. -/
def retryAfterHeader (headers : List (String × String)) : Option String :=
  match headers.lookup "retry-after" with
  | some s => if s = "" then headers.lookup "Retry-After" else some s
  | none => headers.lookup "Retry-After"

/-- The seconds slept by `GroqRateLimiter.handle_429_response`: the parsed
`Retry-After` value when present and parseable, otherwise 60. A negative
parsed value makes `time.sleep` raise `ValueError`, which the handler's
own `except ValueError` catches by sleeping 60. -/
def handle429Wait (headers : List (String × String)) : Int :=
  match retryAfterHeader headers with
  | none => 60
  | some s =>
    if s = "" then 60
    else
      match pyInt? s with
      | some n => if n < 0 then 60 else n
      | none => 60

/-- The retry loop of `extract_events_with_groq` over the attempt oracle
`att`: on a rate-limit-class error, sleep `handle429Wait` (recorded in the
returned list) and retry while attempts remain; on any other error, or
when attempts are exhausted, return `None`. `k` is the attempt index,
`remaining` the attempts left of `max_retries = 3`. -/
def groqRetryLoop (att : Nat → AttemptResult) : Nat → Nat → Option Extracted × List Int
  | _, 0 => (none, [])
  | k, r + 1 =>
    match att k with
    | .success d => (some d, [])
    | .failure msg headers =>
      if isRateLimitError msg then
        let w := handle429Wait headers
        if r = 0 then (none, [w])
        else
          let rec' := groqRetryLoop att (k + 1) r
          (rec'.1, w :: rec'.2)
      else (none, [])

/-- `EventExtractor.extract_events_with_groq` after the request is built:
if the rate limiter refused admission return `None` immediately,
otherwise run the 3-attempt retry loop. Returns the result and the list
of retry sleeps performed. -/
def extract_events_with_groq (admitted : Bool) (att : Nat → AttemptResult) :
    Option Extracted × List Int :=
  if admitted then groqRetryLoop att 0 3 else (none, [])

/-! ## Theorems -/

/-- C9: `_normalize_tag` strips the leading `'#'`, removes punctuation while
preserving spaces, drops a single trailing `'s'` (not after `'ss'`, and
only when the punctuation-stripped string is longer than 3 characters),
and title-cases the result: `"#JVBasketball!"` maps to `"Jvbasketball"`,
`"#Tryouts"` maps to `"Tryout"`, and `"Glass"` stays `"Glass"`; a
3-character `"abs"` keeps its `'s'`, and spaces survive punctuation
removal. -/
theorem C9_tag_normalization :
    _normalize_tag "#JVBasketball!" = "Jvbasketball" ∧
    _normalize_tag "#Tryouts" = "Tryout" ∧
    _normalize_tag "Glass" = "Glass" ∧
    _normalize_tag "abs" = "Abs" ∧
    _normalize_tag "jv tryouts!" = "Jv Tryout" := by
  refine ⟨?_, ?_, ?_, ?_, ?_⟩ <;> decide

/-- C6: whenever the requests-per-day usage read at admission time has
reached the daily threshold, `check_and_wait_if_needed` returns `False`
outright: the outcome is `refuse`, no sleep happens, and the returned
queues are exactly the purged ones — no speculative entry was appended to
any of the three queues, whatever the per-minute thresholds say. -/
theorem C6_daily_refusal (st : RLState) (now : Int) (estTokens : Nat)
    (h : (cleanupOldEntries st now).requests_per_day.length ≥ st.RPD_THRESHOLD) :
    checkAndWaitStep st now estTokens = .refuse (cleanupOldEntries st now) := by
  have h2 : (cleanupOldEntries st now).requests_per_day.length ≥
      (cleanupOldEntries st now).RPD_THRESHOLD := h
  simp only [checkAndWaitStep, getCurrentUsage]
  simp [h2]

/-- A rate-limiter state whose daily queue is at its (runtime-lowered)
threshold while the per-minute request threshold is also exceeded. -/
def exSt6 : RLState :=
  { requests_per_minute := [(100, 10), (100, 10)]
    requests_per_day := [(100, 10), (100, 10)]
    tokens_per_minute := [(100, 10)]
    RPM_THRESHOLD := 1
    RPD_THRESHOLD := 2
    TPM_THRESHOLD := 270000 }

/-- Witness for C6: at a concrete state whose daily usage is at threshold —
and whose per-minute request threshold is simultaneously exceeded — the
admission check refuses with the purged state and no recorded entry. -/
theorem C6_daily_refusal_witness :
    (cleanupOldEntries exSt6 100).requests_per_day.length ≥ exSt6.RPD_THRESHOLD ∧
    (cleanupOldEntries exSt6 100).requests_per_minute.length ≥ exSt6.RPM_THRESHOLD ∧
    checkAndWaitStep exSt6 100 50 = .refuse (cleanupOldEntries exSt6 100) :=
  ⟨by decide, by decide, C6_daily_refusal exSt6 100 50 (by decide)⟩

/-- The link loop completes (without re-raising) exactly when no element's
insert reports a non-duplicate error. -/
theorem runLinks_fst_iff {α : Type} (tbl : String) (mkRow : α → List (String × DbVal))
    (res : Nat → LinkResult) (l : List α) (i : Nat) :
    (runLinks tbl mkRow res i l).1 = true ↔
      ∀ j < l.length, res (i + j) ≠ .otherError := by
  induction l generalizing i with
  | nil => simp [runLinks]
  | cons a rest ih =>
    simp only [runLinks]
    cases hr : res i with
    | otherError =>
      simp only [List.length_cons]
      constructor
      · intro hfalse; cases hfalse
      · intro hall
        exact absurd hr (by simpa using hall 0 (Nat.succ_pos _))
    | ok =>
      simp only [ih (i + 1), List.length_cons]
      constructor
      · intro hall j hj
        cases j with
        | zero => simp [hr]
        | succ j' =>
          have := hall j' (Nat.lt_of_succ_lt_succ hj)
          simpa [Nat.add_assoc, Nat.add_comm 1 j'] using this
      · intro hall j hj
        have := hall (j + 1) (Nat.succ_lt_succ hj)
        simpa [Nat.add_assoc, Nat.add_comm 1 j] using this
    | dupKeyError =>
      simp only [ih (i + 1), List.length_cons]
      constructor
      · intro hall j hj
        cases j with
        | zero => simp [hr]
        | succ j' =>
          have := hall j' (Nat.lt_of_succ_lt_succ hj)
          simpa [Nat.add_assoc, Nat.add_comm 1 j'] using this
      · intro hall j hj
        have := hall (j + 1) (Nat.succ_lt_succ hj)
        simpa [Nat.add_assoc, Nat.add_comm 1 j] using this

/-- C2 (amended): when the `events` row insert succeeds,
`_insert_transaction` returns `True` iff the category lookup-or-create
step completed without raising and no category link and no tag link
fails with a non-duplicate-key error — duplicate-key violations are
swallowed as benign, while a raised category-resolution error or any
other link error aborts the rest of the call and flips the return value
to `False`; the already-sent `events` row is never rolled back (the
trace still starts with it). -/
theorem C2_insert_return_value (eid : Nat) (catResolve : Nat → CatResolveOutcome)
    (catRes tagRes : Nat → LinkResult) (event : CleanedEvent)
    (profile_id school_id post_id caption_id : Option Nat) :
    ((insertTransaction (.ok eid) catResolve catRes tagRes event
        profile_id school_id post_id caption_id).1 = true ↔
      ∃ ids, _get_or_create_category_ids catResolve 0 event.categories = .ok ids ∧
        (∀ i < ids.length, catRes i ≠ .otherError) ∧
        (∀ j < event.tags.length, tagRes j ≠ .otherError)) ∧
    (insertTransaction (.ok eid) catResolve catRes tagRes event
        profile_id school_id post_id caption_id).2.head? =
      some ⟨"events", eventRowFields event profile_id school_id post_id caption_id⟩ := by
  simp only [insertTransaction]
  split
  · rename_i u heq
    refine ⟨⟨fun hfalse => Bool.noConfusion hfalse, ?_⟩, rfl⟩
    rintro ⟨ids, hids, -⟩
    rw [heq] at hids
    cases hids
  · rename_i ids heq
    by_cases hc : (runLinks "event_categories"
        (fun cid => [("event_id", .vnat eid), ("category_id", .vnat cid)]) catRes 0
        ids).1 = true
    · rw [if_pos hc]
      refine ⟨?_, rfl⟩
      have hcats := (runLinks_fst_iff "event_categories"
        (fun cid => [("event_id", DbVal.vnat eid), ("category_id", DbVal.vnat cid)])
        catRes ids 0).mp hc
      have htags := runLinks_fst_iff "event_tags"
        (fun tag => [("event-id", DbVal.vnat eid), ("tag", DbVal.vstr tag)])
        tagRes event.tags 0
      constructor
      · intro h
        exact ⟨ids, heq, by simpa using hcats, by simpa using htags.mp h⟩
      · rintro ⟨ids2, hids2, -, htag2⟩
        rw [heq] at hids2
        injection hids2 with hh
        subst hh
        exact htags.mpr (by simpa using htag2)
    · rw [if_neg hc]
      refine ⟨?_, rfl⟩
      refine ⟨fun hfalse => Bool.noConfusion hfalse, ?_⟩
      rintro ⟨ids2, hids2, hcat2, -⟩
      rw [heq] at hids2
      injection hids2 with hh
      subst hh
      exact (hc ((runLinks_fst_iff _ _ catRes ids 0).mpr (by simpa using hcat2))).elim

/-- A concrete cleaned event with one tag and no categories. -/
def exTagEvent : CleanedEvent :=
  { name := "Tryouts"
    start_datetime := none
    end_datetime := none
    address := none
    location_name := none
    description := some "JV tryouts"
    is_all_day := false
    type := "in-person"
    url := none
    categories := []
    tags := ["Tryout"] }

/-- Counterexample to C2 as stated: the `events` row insert succeeds
(outcome `.ok 1`, data returned), yet a single tag-link insert failing
with a non-duplicate-key error makes `_insert_transaction` return
`False` — the link failure does change the return value. -/
theorem C2_counterexample :
    (insertTransaction (.ok 1) (fun _ => .ok 0) (fun _ => .ok) (fun _ => .otherError)
      exTagEvent none none none none).1 = false := by decide

/-- A concrete cleaned event with one category and one tag. -/
def exCatTagEvent : CleanedEvent := { exTagEvent with categories := ["sport"] }

/-- Witness for C2 (amended): at a concrete input whose single category
name resolves to id 5, whose category link hits a duplicate-key
violation and whose tag link succeeds, the characterization holds and
the call indeed returns `True`; the trace still starts with the `events`
row. -/
theorem C2_insert_return_value_witness :
    (((insertTransaction (.ok 1) (fun _ => .ok 5) (fun _ => .dupKeyError) (fun _ => .ok)
        exCatTagEvent none none none none).1 = true ↔
      ∃ ids, _get_or_create_category_ids (fun _ => .ok 5) 0 exCatTagEvent.categories =
          .ok ids ∧
        (∀ i < ids.length, (fun (_ : Nat) => LinkResult.dupKeyError) i ≠ .otherError) ∧
        (∀ j < exCatTagEvent.tags.length, (fun (_ : Nat) => LinkResult.ok) j ≠ .otherError)) ∧
    (insertTransaction (.ok 1) (fun _ => .ok 5) (fun _ => .dupKeyError) (fun _ => .ok)
        exCatTagEvent none none none none).2.head? =
      some ⟨"events", eventRowFields exCatTagEvent none none none none⟩) ∧
    (insertTransaction (.ok 1) (fun _ => .ok 5) (fun _ => .dupKeyError) (fun _ => .ok)
        exCatTagEvent none none none none).1 = true :=
  ⟨C2_insert_return_value 1 (fun _ => .ok 5) (fun _ => .dupKeyError) (fun _ => .ok)
    exCatTagEvent none none none none, by decide⟩

/-- C3: the rows `_insert_transaction` sends to the `event_tags` table. At a
concrete insert of `exTagEvent` under event id 7 the transaction succeeds
and sends the link row keyed `event-id` (hyphenated) — not the `event_id`
shape the spec gives: every `event_tags` row in the trace has key list
`["event-id", "tag"]`. -/
theorem C3_tag_link_row :
    ((insertTransaction (.ok 7) (fun _ => .ok 0) (fun _ => .ok) (fun _ => .ok)
        exTagEvent none none none none).1 = true) ∧
    (⟨"event_tags", [("event-id", .vnat 7), ("tag", .vstr "Tryout")]⟩ : Write) ∈
      (insertTransaction (.ok 7) (fun _ => .ok 0) (fun _ => .ok) (fun _ => .ok)
        exTagEvent none none none none).2 ∧
    ((insertTransaction (.ok 7) (fun _ => .ok 0) (fun _ => .ok) (fun _ => .ok)
        exTagEvent none none none none).2.filter
      (fun w => w.table = "event_tags")).map (fun w => w.row.map Prod.fst) =
      [["event-id", "tag"]] := by
  refine ⟨by decide, by decide, by decide⟩

/-- The `success_any` flag computed by the `validate_and_insert` loop is
exactly "some insert attempt returned `True`". -/
theorem loop_success_any (db : DBBehavior) (pd : PostData) (tc : List CatEntry)
    (tt : List TagEntry) (now : Int) :
    ∀ evs k b flags, validateAndInsertLoop db pd tc tt now evs k = .ok (b, flags) →
      b = flags.any (fun x => x) := by
  intro evs
  induction evs with
  | nil =>
    intro k b flags h
    simp only [validateAndInsertLoop, Except.ok.injEq, Prod.mk.injEq] at h
    simp [← h.1, ← h.2]
  | cons raw rest ih =>
    intro k b flags h
    simp only [validateAndInsertLoop] at h
    split at h
    · exact ih k b flags h
    · split at h
      · cases h
      · split at h
        · cases h
        · rename_i b' flags' heq
          simp only [Except.ok.injEq, Prod.mk.injEq] at h
          obtain ⟨h1, h2⟩ := h
          subst h1
          subst h2
          simp [ih _ _ _ heq]

/-- C1 (amended): `process_post` marks the post processed exactly when
`validate_and_insert` returned `True`, which holds exactly when at least
one insert attempt succeeded; a well-formed extraction whose events list
is empty — the model explicitly reporting zero events — therefore leaves
the post unmarked, as does a failed extraction. -/
theorem C1_processed_marking (db : DBBehavior) (pd : PostData) (now : Int) :
    (∀ d r, process_post db (some d) pd now = .ok r →
      r.marked = r.success ∧ r.success = r.inserted.any (fun x => x)) ∧
    (∀ cs ts, process_post db (some ⟨[], cs, ts⟩) pd now = .ok ⟨false, false, []⟩) ∧
    process_post db none pd now = .ok ⟨false, false, []⟩ := by
  refine ⟨?_, ?_, rfl⟩
  · intro d r h
    simp only [process_post] at h
    split at h
    · cases h
    · rename_i b flags heq
      cases h
      exact ⟨rfl, loop_success_any db pd d.categories d.event_tags now d.events 0 b flags heq⟩
  · intro cs ts
    rfl

/-- A database behaviour where every call succeeds. -/
def exDb : DBBehavior :=
  { eventInsert := fun _ => .ok 1
    catResolve := fun _ _ => .ok 3
    catLink := fun _ _ => .ok
    tagLink := fun _ _ => .ok
    school := .found "School" "Addr" }

/-- A concrete post record. -/
def exPd : PostData :=
  { post_id := 10, profile_id := some 1, school_id := some 2, caption_id := none }

/-- Counterexample to C1 as stated: an extraction attempt that completes
with a well-formed response explicitly reporting zero events (`events =
[]`) does NOT mark the post processed — `process_post` returns
`extraction_success = false` and never calls `mark_post_processed`,
against the claim's "empty events list is still marked processed". -/
theorem C1_counterexample :
    process_post exDb (some ⟨[], [], []⟩) exPd 0 = .ok ⟨false, false, []⟩ := rfl

/-- A raw event that passes validation (future start, nonempty name). -/
def rawOk : RawEvent :=
  { name := "Game"
    description := "Varsity game"
    start_datetime := .parsed 100
    end_datetime := .empty
    is_all_day := false
    type := ""
    address := ""
    location_name := ""
    url := ""
    categories := []
    event_tags := [] }

/-- Witness for C1 (amended): a post with one valid, successfully inserted
event is marked processed, and the marking equals the success flag which
equals "some insert succeeded". -/
theorem C1_processed_marking_witness :
    process_post exDb (some ⟨[rawOk], [], []⟩) exPd 50 = .ok ⟨true, true, [true]⟩ ∧
    ((⟨true, true, [true]⟩ : PostOutcome).marked = (⟨true, true, [true]⟩ : PostOutcome).success ∧
      (⟨true, true, [true]⟩ : PostOutcome).success =
        (⟨true, true, [true]⟩ : PostOutcome).inserted.any (fun x => x)) :=
  ⟨rfl, (C1_processed_marking exDb exPd 50).1 ⟨[rawOk], [], []⟩ ⟨true, true, [true]⟩ rfl⟩

/-- A queue is time-ordered when its timestamps are nondecreasing in
insertion order (the invariant the deques maintain, since entries are
appended at the current time). -/
def timeOrdered (l : List (Int × Nat)) : Prop :=
  l.Pairwise (fun a b => a.1 ≤ b.1)

/-- On a time-ordered queue, the `popleft`-while purge leaves only entries
at or after the cutoff. -/
theorem purgeOld_bound (cutoff : Int) :
    ∀ l : List (Int × Nat), timeOrdered l → ∀ e ∈ purgeOld cutoff l, cutoff ≤ e.1 := by
  intro l
  induction l with
  | nil => intro _ e he; cases he
  | cons a rest ih =>
    intro hord e he
    rw [timeOrdered, List.pairwise_cons] at hord
    simp only [purgeOld] at he
    by_cases ha : a.1 < cutoff
    · rw [if_pos ha] at he
      exact ih hord.2 e he
    · rw [if_neg ha] at he
      rcases List.mem_cons.mp he with h | h
      · subst h
        omega
      · exact le_trans (le_of_not_lt ha) (hord.1 e h)

/-- C7: every usage read purges before counting — after
`_get_current_usage` at time `now` on time-ordered queues, every
remaining per-minute entry is at most 60 seconds old and every remaining
per-day entry at most 86400 seconds old, the reported counts and token
sum range exactly over those remaining entries, and in particular an
entry recorded at time `T` no longer appears in either per-minute queue
at any read with `now ≥ T + 61`. -/
theorem C7_window_expiry (st : RLState) (now : Int)
    (h1 : timeOrdered st.requests_per_minute)
    (h2 : timeOrdered st.requests_per_day)
    (h3 : timeOrdered st.tokens_per_minute) :
    (∀ e ∈ (getCurrentUsage st now).1.requests_per_minute, now - 60 ≤ e.1) ∧
    (∀ e ∈ (getCurrentUsage st now).1.tokens_per_minute, now - 60 ≤ e.1) ∧
    (∀ e ∈ (getCurrentUsage st now).1.requests_per_day, now - 86400 ≤ e.1) ∧
    (getCurrentUsage st now).2.1 = (getCurrentUsage st now).1.requests_per_minute.length ∧
    (getCurrentUsage st now).2.2.1 = (getCurrentUsage st now).1.requests_per_day.length ∧
    (getCurrentUsage st now).2.2.2 = tokenSum (getCurrentUsage st now).1.tokens_per_minute ∧
    (∀ T tok, T + 61 ≤ now →
      (T, tok) ∉ (getCurrentUsage st now).1.requests_per_minute ∧
      (T, tok) ∉ (getCurrentUsage st now).1.tokens_per_minute) := by
  have hm : ∀ e ∈ (getCurrentUsage st now).1.requests_per_minute, now - 60 ≤ e.1 :=
    purgeOld_bound (now - 60) st.requests_per_minute h1
  have ht : ∀ e ∈ (getCurrentUsage st now).1.tokens_per_minute, now - 60 ≤ e.1 :=
    purgeOld_bound (now - 60) st.tokens_per_minute h3
  have hd : ∀ e ∈ (getCurrentUsage st now).1.requests_per_day, now - 86400 ≤ e.1 := by
    have := purgeOld_bound (now - 24 * 60 * 60) st.requests_per_day h2
    simpa using this
  refine ⟨hm, ht, hd, rfl, rfl, rfl, ?_⟩
  intro T tok hT
  constructor
  · intro hmem
    have := hm (T, tok) hmem
    omega
  · intro hmem
    have := ht (T, tok) hmem
    omega

/-- A small concrete rate-limiter state with entries about to expire. -/
def exSt7 : RLState :=
  { requests_per_minute := [(100, 10), (150, 20)]
    requests_per_day := [(100, 10), (150, 20)]
    tokens_per_minute := [(100, 10), (150, 20)]
    RPM_THRESHOLD := 900
    RPD_THRESHOLD := 450000
    TPM_THRESHOLD := 270000 }

/-- Witness for C7: reading at time 161 (61 seconds after the entry at
100) drops that entry from both per-minute queues while keeping it in
the per-day queue. -/
theorem C7_window_expiry_witness :
    timeOrdered exSt7.requests_per_minute ∧
    timeOrdered exSt7.requests_per_day ∧
    timeOrdered exSt7.tokens_per_minute ∧
    ((∀ e ∈ (getCurrentUsage exSt7 161).1.requests_per_minute, (161 : Int) - 60 ≤ e.1) ∧
     (∀ e ∈ (getCurrentUsage exSt7 161).1.tokens_per_minute, (161 : Int) - 60 ≤ e.1) ∧
     (∀ e ∈ (getCurrentUsage exSt7 161).1.requests_per_day, (161 : Int) - 86400 ≤ e.1) ∧
     (getCurrentUsage exSt7 161).2.1 = (getCurrentUsage exSt7 161).1.requests_per_minute.length ∧
     (getCurrentUsage exSt7 161).2.2.1 = (getCurrentUsage exSt7 161).1.requests_per_day.length ∧
     (getCurrentUsage exSt7 161).2.2.2 = tokenSum (getCurrentUsage exSt7 161).1.tokens_per_minute ∧
     (∀ T tok, T + 61 ≤ (161 : Int) →
       (T, tok) ∉ (getCurrentUsage exSt7 161).1.requests_per_minute ∧
       (T, tok) ∉ (getCurrentUsage exSt7 161).1.tokens_per_minute)) ∧
    (getCurrentUsage exSt7 161).1.requests_per_minute = [(150, 20)] ∧
    (getCurrentUsage exSt7 161).1.requests_per_day = [(100, 10), (150, 20)] := by
  refine ⟨?_, ?_, ?_, ?_, by decide, by decide⟩
  · unfold timeOrdered
    decide
  · unfold timeOrdered
    decide
  · unfold timeOrdered
    decide
  · exact C7_window_expiry exSt7 161 (by unfold timeOrdered; decide)
      (by unfold timeOrdered; decide) (by unfold timeOrdered; decide)

/-- C8: the gateway retries only rate-limit-class errors (an explicit
`429` or a message containing `rate limit`), sleeping the parsed
`Retry-After` seconds (60 when the header is absent or unparseable)
before each retry, for at most 3 attempts, returning `None` after
exhaustion; any other error returns `None` immediately with no sleep and
no retry; a success after a rate-limit error returns the parsed data. -/
theorem C8_gateway_retry (att : Nat → AttemptResult) (m0 m1 m2 : String)
    (h0 h1 h2 : List (String × String)) :
    (att 0 = .failure m0 h0 → isRateLimitError m0 = true →
     att 1 = .failure m1 h1 → isRateLimitError m1 = true →
     att 2 = .failure m2 h2 → isRateLimitError m2 = true →
     extract_events_with_groq true att =
       (none, [handle429Wait h0, handle429Wait h1, handle429Wait h2])) ∧
    (att 0 = .failure m0 h0 → isRateLimitError m0 = false →
     extract_events_with_groq true att = (none, [])) ∧
    (∀ d, att 0 = .failure m0 h0 → isRateLimitError m0 = true → att 1 = .success d →
     extract_events_with_groq true att = (some d, [handle429Wait h0])) ∧
    handle429Wait [("retry-after", "5")] = 5 ∧
    handle429Wait [] = 60 ∧
    handle429Wait [("retry-after", "soon")] = 60 := by
  refine ⟨?_, ?_, ?_, by decide, by decide, by decide⟩
  · intro e0 r0 e1 r1 e2 r2
    simp [extract_events_with_groq, groqRetryLoop, e0, r0, e1, r1, e2, r2]
  · intro e0 r0
    simp [extract_events_with_groq, groqRetryLoop, e0, r0]
  · intro d e0 r0 e1
    simp [extract_events_with_groq, groqRetryLoop, e0, r0, e1]

/-- A concrete attempt oracle: two throttling failures (one with a
`Retry-After: 5` header, one with an unparseable header), then a
non-throttling failure. -/
def exAtt : Nat → AttemptResult
  | 0 => .failure "Error code: 429 - rate limited" [("retry-after", "5")]
  | 1 => .failure "Rate Limit exceeded" []
  | _ => .failure "429 try later" [("retry-after", "soon")]

/-- Witness for C8: three rate-limit errors exhaust the 3 attempts with
sleeps of 5s (parsed header), 60s (no header) and 60s (unparseable
header), returning `None`. -/
theorem C8_gateway_retry_witness :
    exAtt 0 = .failure "Error code: 429 - rate limited" [("retry-after", "5")] ∧
    isRateLimitError "Error code: 429 - rate limited" = true ∧
    exAtt 1 = .failure "Rate Limit exceeded" [] ∧
    isRateLimitError "Rate Limit exceeded" = true ∧
    exAtt 2 = .failure "429 try later" [("retry-after", "soon")] ∧
    isRateLimitError "429 try later" = true ∧
    extract_events_with_groq true exAtt = (none, [5, 60, 60]) := by
  refine ⟨rfl, by decide, rfl, by decide, rfl, by decide, ?_⟩
  have h := (C8_gateway_retry exAtt "Error code: 429 - rate limited" "Rate Limit exceeded"
    "429 try later" [("retry-after", "5")] [] [("retry-after", "soon")]).1
    rfl (by decide) rfl (by decide) rfl (by decide)
  rw [h]
  decide

/-- More than 120 whole days in the future means at least 121 days of
seconds ahead. -/
theorem daysInFuture_gt_120 (t now : Int) (h : 120 < daysInFuture t now) :
    121 * 86400 ≤ t - now := by
  rw [daysInFuture, Int.fdiv_eq_ediv _ (by norm_num)] at h
  exact (Int.le_ediv_iff_mul_le (by norm_num)).mp h

/-- `dateOf` is monotone. -/
theorem dateOf_mono {a b : Int} (h : a ≤ b) : dateOf a ≤ dateOf b := by
  rw [dateOf, dateOf, Int.fdiv_eq_ediv _ (by norm_num),
    Int.fdiv_eq_ediv _ (by norm_num)]
  exact Int.ediv_le_ediv (by norm_num) h

/-- When the past check passes, `_validate_event` never reports `past`. -/
theorem validate_not_past (raw : RawEvent) (tc : List CatEntry) (tt : List TagEntry)
    (now : Int) (hrp : rejectPast raw (_to_utc raw.start_datetime) now = false) :
    (_validate_event raw tc tt now).2 ≠ some .past := by
  simp only [_validate_event, hrp, Bool.false_eq_true, if_false]
  split
  · simp
  · split
    · simp
    · simp

/-- C4: with a parseable start, a timed event strictly before now is
rejected with reason `past`; an all-day event is rejected as `past`
exactly when its start date is strictly before today's date — an all-day
event starting today is not rejected as past. -/
theorem C4_past_rejection (raw : RawEvent) (tc : List CatEntry) (tt : List TagEntry)
    (now t : Int) (hs : _to_utc raw.start_datetime = some t) :
    (raw.is_all_day = false → t < now →
      _validate_event raw tc tt now = (none, some .past)) ∧
    (raw.is_all_day = true → dateOf t < dateOf now →
      _validate_event raw tc tt now = (none, some .past)) ∧
    (raw.is_all_day = true → dateOf now ≤ dateOf t →
      (_validate_event raw tc tt now).2 ≠ some .past) := by
  refine ⟨?_, ?_, ?_⟩
  · intro hb hlt
    have hrp : rejectPast raw (_to_utc raw.start_datetime) now = true := by
      simp [rejectPast, hs, hb, hlt]
    simp [_validate_event, hrp]
  · intro hb hlt
    have hrp : rejectPast raw (_to_utc raw.start_datetime) now = true := by
      simp [rejectPast, hs, hb, hlt]
    simp [_validate_event, hrp]
  · intro hb hge
    have hrp : rejectPast raw (_to_utc raw.start_datetime) now = false := by
      simp [rejectPast, hs, hb, not_lt.mpr hge]
    exact validate_not_past raw tc tt now hrp

/-- `empty_to_none` yields `None` exactly on blank strings. -/
theorem empty_to_none_eq_none (s : String) : empty_to_none s = none ↔ pyStrip s = "" := by
  unfold empty_to_none
  split
  · simp [*]
  · simp [*]

/-- C5: with a parseable start more than 120 whole days ahead, the event is
rejected with `validation_failed` when no plausible four-digit year
occurs in its name/description text, and is not rejected by the horizon
check — indeed fully accepted — when such a year literal is present (and
the event has any name or description content). -/
theorem C5_future_horizon (raw : RawEvent) (tc : List CatEntry) (tt : List TagEntry)
    (now t : Int) (hs : _to_utc raw.start_datetime = some t)
    (hd : 120 < daysInFuture t now) :
    (hasExplicitYear raw = false →
      _validate_event raw tc tt now = (none, some .validation_failed)) ∧
    (hasExplicitYear raw = true →
      (pyStrip raw.name ≠ "" ∨ pyStrip raw.description ≠ "") →
      ∃ c, _validate_event raw tc tt now = (some c, none)) := by
  have h121 : 121 * 86400 ≤ t - now := daysInFuture_gt_120 t now hd
  have hnow : now ≤ t := by omega
  have hdate : dateOf now ≤ dateOf t := dateOf_mono hnow
  have hrp : rejectPast raw (_to_utc raw.start_datetime) now = false := by
    cases hb : raw.is_all_day with
    | true => simp [rejectPast, hs, hb, not_lt.mpr hdate]
    | false =>
      simp only [rejectPast, hs, hb, Bool.false_eq_true, if_false, decide_eq_false_iff_not]
      omega
  refine ⟨?_, ?_⟩
  · intro hy
    have hrh : rejectHorizon raw (_to_utc raw.start_datetime) now = true := by
      simp [rejectHorizon, hs, hd, hy]
    simp [_validate_event, hrp, hrh]
  · intro hy hnd
    have hrh : rejectHorizon raw (_to_utc raw.start_datetime) now = false := by
      simp [rejectHorizon, hs, hy]
    simp only [_validate_event, hrp, hrh, Bool.false_eq_true, if_false]
    rw [if_neg]
    · exact ⟨_, rfl⟩
    · intro hcon
      rcases hnd with h | h
      · exact h ((empty_to_none_eq_none _).mp hcon.1)
      · exact h ((empty_to_none_eq_none _).mp hcon.2)

/-- C10: a non-empty but unparseable start string makes `_to_utc` return
`None`; the past and future-horizon checks are then skipped and the event
is accepted with a null `start_datetime` whenever it has a non-empty name
or description. -/
theorem C10_unparseable_start (raw : RawEvent) (tc : List CatEntry) (tt : List TagEntry)
    (now : Int) (s : String) (hs : raw.start_datetime = .unparseable s)
    (hnd : pyStrip raw.name ≠ "" ∨ pyStrip raw.description ≠ "") :
    _to_utc raw.start_datetime = none ∧
    ∃ c, _validate_event raw tc tt now = (some c, none) ∧ c.start_datetime = none := by
  have hnone : _to_utc raw.start_datetime = none := by rw [hs]; rfl
  refine ⟨hnone, ?_⟩
  have hrp : rejectPast raw none now = false := rfl
  have hrh : rejectHorizon raw none now = false := rfl
  simp only [_validate_event, hnone, hrp, hrh, Bool.false_eq_true, if_false]
  rw [if_neg]
  · exact ⟨_, rfl, rfl⟩
  · intro hcon
    rcases hnd with h | h
    · exact h ((empty_to_none_eq_none _).mp hcon.1)
    · exact h ((empty_to_none_eq_none _).mp hcon.2)

/-- The spec's timed past event: start `2025-05-30T10:00:00Z`. -/
def rawPastTimed : RawEvent :=
  { name := "Old game"
    description := ""
    start_datetime := .parsed 1748599200
    end_datetime := .empty
    is_all_day := false
    type := ""
    address := ""
    location_name := ""
    url := ""
    categories := []
    event_tags := [] }

/-- The spec's all-day event starting today (`2025-06-01T00:00:00Z`). -/
def rawTodayAllDay : RawEvent :=
  { rawPastTimed with
    name := "Spirit day"
    start_datetime := .parsed 1748736000
    is_all_day := true }

/-- Witness for C4 at reference time `2025-06-01T00:00:00Z`: the timed
event of `2025-05-30T10:00:00Z` is rejected with reason `past`, while the
all-day event starting today is not rejected as past. -/
theorem C4_past_rejection_witness :
    _to_utc rawPastTimed.start_datetime = some 1748599200 ∧
    _validate_event rawPastTimed [] [] 1748736000 = (none, some .past) ∧
    _to_utc rawTodayAllDay.start_datetime = some 1748736000 ∧
    (_validate_event rawTodayAllDay [] [] 1748736000).2 ≠ some .past :=
  ⟨rfl,
   (C4_past_rejection rawPastTimed [] [] 1748736000 1748599200 rfl).1 rfl (by decide),
   rfl,
   (C4_past_rejection rawTodayAllDay [] [] 1748736000 1748736000 rfl).2.2 rfl (by decide)⟩

/-- An event 200 days in the future with no year literal. -/
def rawFarNoYear : RawEvent :=
  { rawPastTimed with
    name := "Festival"
    description := "Big festival"
    start_datetime := .parsed 17280000
    is_all_day := false }

/-- The same far-future event with `"2026"` in its description. -/
def rawFarWithYear : RawEvent :=
  { rawFarNoYear with description := "Big festival in 2026" }

/-- Witness for C5 at reference time 0: the event 200 days out with no
four-digit year literal is rejected with `validation_failed`, while the
same event with `"2026"` in the description is accepted. -/
theorem C5_future_horizon_witness :
    _to_utc rawFarNoYear.start_datetime = some 17280000 ∧
    (120 : Int) < daysInFuture 17280000 0 ∧
    _validate_event rawFarNoYear [] [] 0 = (none, some .validation_failed) ∧
    (∃ c, _validate_event rawFarWithYear [] [] 0 = (some c, none)) :=
  ⟨rfl, by decide,
   (C5_future_horizon rawFarNoYear [] [] 0 17280000 rfl (by decide)).1 (by decide),
   (C5_future_horizon rawFarWithYear [] [] 0 17280000 rfl (by decide)).2 (by decide)
     (Or.inr (by decide))⟩

/-- An event whose start string is non-empty but unparseable. -/
def rawBadStart : RawEvent :=
  { rawPastTimed with
    name := "Club fair"
    description := "Sign-ups open"
    start_datetime := .unparseable "sometime soon" }

/-- Witness for C10: the unparseable start yields a `None` UTC conversion
and the event is accepted with a null start. -/
theorem C10_unparseable_start_witness :
    _to_utc rawBadStart.start_datetime = none ∧
    ∃ c, _validate_event rawBadStart [] [] 1748736000 = (some c, none) ∧
      c.start_datetime = none :=
  C10_unparseable_start rawBadStart [] [] 1748736000 "sometime soon" rfl
    (Or.inl (by decide))
